import Mathlib

/-!
# Verification of the cto-dashboard provisioning scripts

Shallow embedding of the two provisioning scripts of this repository,
`setup-database.py` and `setup-with-ipv6.py`, together with proofs of the
behavioural properties stated in the specification.

The embedding models:
* the hard-coded configuration constants of both scripts;
* `hash_password` (SHA-256 of password ++ JWT_SECRET, hex-encoded), with the
  SHA-256 compression implemented over `Nat` with explicit `% 2 ^ 32`;
* the database state touched by the scripts (users table, audit_log table,
  schema flag, row counts of the other reported tables);
* the SQL statements the scripts issue, as an inductive operation type with
  a semantics on the database state;
* the admin upsert and audit insert of `setup-database.py`;
* the connection-fallback loop of `setup-with-ipv6.py`;
* the overall control flow of each script, as a function from an environment
  of failure oracles (connection errors, missing schema file, database errors
  at each execution point) to an exit code, a final committed database state,
  a commit count and the console lines the error paths print.
-/

set_option maxRecDepth 16384

namespace CtoDashboard

/-! ## Hard-coded configuration of `setup-database.py` (lines 14-20) -/

def JWT_SECRET : String := "9eIYkI29Ui51haY7VtGuXFKg2y+gFWpwruK4y85gBHk="

def ADMIN_EMAIL : String := "jonathan.mitchell.anderson@gmail.com"

def ADMIN_PASSWORD : String := "J0n8th8n"

def ADMIN_NAME : String := "Jonathan Anderson"

def ADMIN_ROLE : String := "cto"

/-! ## SHA-256 over byte lists

`hash_password` in `setup-database.py` (lines 22-24) is
`hashlib.sha256((password + JWT_SECRET).encode()).hexdigest()`.
We implement SHA-256 over `List Nat` (one `Nat` per byte), with all 32-bit
words represented as `Nat` reduced modulo `2 ^ 32`.
-/

/-- `2 ^ 32`, the modulus of the 32-bit words of SHA-256. -/
def M32 : Nat := 4294967296

/-- 32-bit right rotation. The argument is assumed `< M32`. -/
def rotr (n x : Nat) : Nat := ((x >>> n) ||| (x <<< (32 - n))) % M32

/-- 32-bit modular addition. -/
def add32 (a b : Nat) : Nat := (a + b) % M32

/-- SHA-256 small sigma 0. -/
def ssig0 (x : Nat) : Nat := (rotr 7 x) ^^^ (rotr 18 x) ^^^ (x >>> 3)

/-- SHA-256 small sigma 1. -/
def ssig1 (x : Nat) : Nat := (rotr 17 x) ^^^ (rotr 19 x) ^^^ (x >>> 10)

/-- SHA-256 big sigma 0. -/
def bsig0 (x : Nat) : Nat := (rotr 2 x) ^^^ (rotr 13 x) ^^^ (rotr 22 x)

/-- SHA-256 big sigma 1. -/
def bsig1 (x : Nat) : Nat := (rotr 6 x) ^^^ (rotr 11 x) ^^^ (rotr 25 x)

/-- SHA-256 choice function; `¬ x` is `x ^^^ 0xFFFFFFFF` on 32-bit words. -/
def chF (x y z : Nat) : Nat := (x &&& y) ^^^ ((x ^^^ 4294967295) &&& z)

/-- SHA-256 majority function. -/
def majF (x y z : Nat) : Nat := (x &&& y) ^^^ (x &&& z) ^^^ (y &&& z)

/-- The 64 SHA-256 round constants, in decimal. -/
def K256 : List Nat :=
  [1116352408, 1899447441, 3049323471, 3921009573, 961987163,
   1508970993, 2453635748, 2870763221, 3624381080, 310598401,
   607225278, 1426881987, 1925078388, 2162078206, 2614888103,
   3248222580, 3835390401, 4022224774, 264347078, 604807628,
   770255983, 1249150122, 1555081692, 1996064986, 2554220882,
   2821834349, 2952996808, 3210313671, 3336571891, 3584528711,
   113926993, 338241895, 666307205, 773529912, 1294757372,
   1396182291, 1695183700, 1986661051, 2177026350, 2456956037,
   2730485921, 2820302411, 3259730800, 3345764771, 3516065817,
   3600352804, 4094571909, 275423344, 430227734, 506948616,
   659060556, 883997877, 958139571, 1322822218, 1537002063,
   1747873779, 1955562222, 2024104815, 2227730452, 2361852424,
   2428436474, 2756734187, 3204031479, 3329325298]

/-- The SHA-256 initial hash value (eight 32-bit words), in decimal. -/
def H256 : List Nat :=
  [1779033703, 3144134277, 1013904242, 2773480762,
   1359893119, 2600822924, 528734635, 1541459225]

/-- Big-endian 8-byte encoding of a natural number (the length field). -/
def be64 (n : Nat) : List Nat :=
  [(n >>> 56) % 256, (n >>> 48) % 256, (n >>> 40) % 256, (n >>> 32) % 256,
   (n >>> 24) % 256, (n >>> 16) % 256, (n >>> 8) % 256, n % 256]

/-- SHA-256 padding: append `0x80`, zero bytes, and the 64-bit bit length,
so the total length is a multiple of 64 bytes. -/
def sha256pad (msg : List Nat) : List Nat :=
  msg ++ [0x80] ++ List.replicate ((119 - msg.length % 64) % 64) 0
      ++ be64 (msg.length * 8)

/-- Group a byte list into big-endian 32-bit words. -/
def toWords : List Nat → List Nat
  | a :: b :: c :: d :: rest => (((a * 256 + b) * 256 + c) * 256 + d) :: toWords rest
  | _ => []

/-- Extend the 16-word message schedule; `fuel` is the number of words
still to append (48 for SHA-256). -/
def extendW : Nat → Array Nat → Array Nat
  | 0, w => w
  | fuel + 1, w =>
    let i := w.size
    extendW fuel (w.push (add32 (add32 (ssig1 (w.getD (i - 2) 0)) (w.getD (i - 7) 0))
                                (add32 (ssig0 (w.getD (i - 15) 0)) (w.getD (i - 16) 0))))

/-- One SHA-256 compression round on the eight-word working state. -/
def round256 (w k : Nat) (s : List Nat) : List Nat :=
  match s with
  | [a, b, c, d, e, f, g, h] =>
    let t1 := add32 h (add32 (bsig1 e) (add32 (chF e f g) (add32 k w)))
    let t2 := add32 (bsig0 a) (majF a b c)
    [add32 t1 t2, a, b, c, add32 d t1, e, f, g]
  | other => other

/-- Compress one 64-byte block into the running eight-word hash value. -/
def compressBlock (h : List Nat) (block : List Nat) : List Nat :=
  let w := extendW 48 (toWords block).toArray
  let final := (w.toList.zip K256).foldl (fun s p => round256 p.1 p.2 s) h
  (h.zip final).map (fun p => add32 p.1 p.2)

/-- Split a byte list into 64-byte chunks; structural recursion on a fuel
argument so the kernel can evaluate it. `chunks64` supplies enough fuel. -/
def chunks64Go : Nat → List Nat → List (List Nat)
  | _, [] => []
  | 0, l => [l]
  | fuel + 1, l => l.take 64 :: chunks64Go fuel (l.drop 64)

/-- Split a byte list into 64-byte chunks. -/
def chunks64 (l : List Nat) : List (List Nat) := chunks64Go l.length l

/-- SHA-256 digest of a byte list, as eight 32-bit words. -/
def sha256words (msg : List Nat) : List Nat :=
  (chunks64 (sha256pad msg)).foldl compressBlock H256

/-- Big-endian 4-byte encoding of a 32-bit word. -/
def be32 (n : Nat) : List Nat :=
  [(n >>> 24) % 256, (n >>> 16) % 256, (n >>> 8) % 256, n % 256]

/-- Lower-case hexadecimal digit. -/
def hexDigit (n : Nat) : Char :=
  if n < 10 then Char.ofNat (48 + n) else Char.ofNat (87 + n)

/-- Lower-case hexadecimal rendering of a byte list, as `hexdigest` does. -/
def toHex (bytes : List Nat) : String :=
  String.mk (bytes.flatMap (fun b => [hexDigit (b / 16), hexDigit (b % 16)]))

/-- SHA-256 hex digest of a byte list. -/
def sha256hex (msg : List Nat) : String :=
  toHex ((sha256words msg).flatMap be32)

/-- Byte encoding of a string. All strings hashed by the scripts are ASCII,
so the code-point list is the UTF-8 encoding `.encode()` produces. -/
def strBytes (s : String) : List Nat := s.data.map (fun c => c.toNat)

/-- `hash_password` of `setup-database.py` lines 22-24:
`hashlib.sha256((password + JWT_SECRET).encode()).hexdigest()`. -/
def hash_password (password : String) : String :=
  sha256hex (strBytes (password ++ JWT_SECRET))

-- FIPS 180-2 test vectors for the SHA-256 embedding.
example : sha256hex (strBytes "abc")
    = "ba7816bf8f01cfea414140de5dae2223b00361a396177a9cb410ff61f20015ad" := by decide

example : sha256hex (strBytes "")
    = "e3b0c44298fc1c149afbf4c8996fb92427ae41e4649b934ca495991b7852b855" := by decide

example : sha256hex (strBytes "abcdbcdecdefdefgefghfghighijhijkijkljklmklmnlmnomnopnopq")
    = "248d6a61d20638b8e5c026930c3e6039a33ce45964ff2167f6ecedd419db06c1" := by decide

/-! ## Database state

The tables the two scripts touch. A user row and an audit-log row carry the
columns the scripts read or write; `id` columns are database-generated,
modelled by the `nextUserId` / `nextAuditId` counters. `projects` and `bugs`
only ever have their row count queried (step 7 of `setup-database.py`), so
they are modelled by their row counts. `schemaApplied` records whether the
bundled SQL schema script has been executed. -/

structure UserRow where
  id : Nat
  email : String
  name : String
  role : String
  created_at : Nat
  updated_at : Nat
deriving DecidableEq, Repr

structure AuditRow where
  id : Nat
  user_id : Nat
  action : String
  entity_type : String
  entity_id : Nat
  details : String
  created_at : Nat
deriving DecidableEq, Repr

structure DBState where
  schemaApplied : Bool
  users : List UserRow
  audit_log : List AuditRow
  nextUserId : Nat
  nextAuditId : Nat
  projects : Nat
  bugs : Nat
deriving DecidableEq, Repr

/-- The empty database the scripts are first run against. -/
def emptyDB : DBState := ⟨false, [], [], 1, 1, 0, 0⟩

/-! ## SQL statements issued by the scripts

Each parameterized statement the scripts execute, with its semantics on
`DBState`. `SELECT` statements do not change the database; `UPDATE users ...
WHERE email = e` rewrites every row whose email matches; the two `INSERT`s
append a row with a database-generated id. -/

inductive SqlOp
  /-- the `information_schema.tables` listing (both scripts) -/
  | selectTables
  /-- the four-subquery row-count statement (`setup-database.py` step 7) -/
  | selectStats
  /-- `SELECT ... FROM users WHERE email = %s` -/
  | selectUserByEmail (email : String)
  /-- `UPDATE users SET name = %s, role = %s, updated_at = NOW() WHERE email = %s` -/
  | updateUser (email name role : String) (now : Nat)
  /-- `INSERT INTO users (email, name, role, created_at, updated_at) VALUES ...` -/
  | insertUser (email name role : String) (now : Nat)
  /-- `INSERT INTO audit_log (user_id, action, entity_type, entity_id, details, created_at) VALUES ...` -/
  | insertAudit (user_id : Nat) (action entity_type details : String) (now : Nat)
deriving DecidableEq, Repr

/-- Whether a statement is a read-only query. -/
def isReadOnly : SqlOp → Bool
  | .selectTables => true
  | .selectStats => true
  | .selectUserByEmail _ => true
  | .updateUser _ _ _ _ => false
  | .insertUser _ _ _ _ => false
  | .insertAudit _ _ _ _ _ => false

/-- Semantics of one statement on the database state. -/
def applyOp : SqlOp → DBState → DBState
  | .selectTables, db => db
  | .selectStats, db => db
  | .selectUserByEmail _, db => db
  | .updateUser e n r t, db =>
    { db with users := db.users.map (fun row =>
        if row.email == e then { row with name := n, role := r, updated_at := t } else row) }
  | .insertUser e n r t, db =>
    { db with users := db.users ++ [⟨db.nextUserId, e, n, r, t, t⟩],
              nextUserId := db.nextUserId + 1 }
  | .insertAudit uid a ety d t, db =>
    { db with audit_log := db.audit_log ++ [⟨db.nextAuditId, uid, a, ety, uid, d, t⟩],
              nextAuditId := db.nextAuditId + 1 }

/-- Run a list of statements in order. -/
def runOps (ops : List SqlOp) (db : DBState) : DBState :=
  ops.foldl (fun s op => applyOp op s) db

/-- The read-only verification/statistics queries of `setup-database.py`
steps 3, 6 and 7 (lines 54-60, 110-113, 125-131). -/
def reporterOps : List SqlOp :=
  [SqlOp.selectTables, SqlOp.selectUserByEmail ADMIN_EMAIL, SqlOp.selectStats]

/-- The read-only verification queries of `setup-with-ipv6.py`
(lines 89-95 and 102-106). -/
def ipv6ReporterOps : List SqlOp :=
  [SqlOp.selectTables, SqlOp.selectUserByEmail ADMIN_EMAIL]

/-! ## The admin upsert and audit insert of `setup-database.py` -/

/-- `cursor.fetchone()` on `SELECT id, email FROM users WHERE email = %s`:
the first row whose email matches. -/
def findUser (users : List UserRow) (email : String) : Option UserRow :=
  users.find? (fun r => r.email == email)

/-- Steps 4 of `setup-database.py` (lines 70-90): look the user up by email;
if present, `UPDATE ... WHERE email = %s` and keep `existing[0]` as the id;
if absent, `INSERT ... RETURNING id` and use the generated id. -/
def adminUpsert (db : DBState) (email name role : String) (now : Nat) : DBState × Nat :=
  match findUser db.users email with
  | some u => (applyOp (.updateUser email name role now) db, u.id)
  | none => (applyOp (.insertUser email name role now) db, db.nextUserId)

/-- The `json.dumps({"email": ..., "password_hash": ...})` payload of
lines 94-97. -/
def jsonDetails (email hash : String) : String :=
  "\x7b\"email\": \"" ++ email ++ "\", \"password_hash\": \"" ++ hash ++ "\"\x7d"

/-- Steps 4-5 of `setup-database.py` (lines 70-103): upsert the admin user,
then insert one `password_created` audit row whose details JSON carries the
email and the password hash. -/
def adminRun (db : DBState) (now : Nat) : DBState :=
  let p := adminUpsert db ADMIN_EMAIL ADMIN_NAME ADMIN_ROLE now
  applyOp (.insertAudit p.2 "password_created" "user"
             (jsonDetails ADMIN_EMAIL (hash_password ADMIN_PASSWORD)) now) p.1

/-- Iterated runs of the admin upsert+audit step, one per timestamp. -/
def adminRuns (db : DBState) : List Nat → DBState
  | [] => db
  | t :: ts => adminRuns (adminRun db t) ts

/-- Executing the bundled SQL schema script (one `cursor.execute` of the
whole file contents). -/
def applySchema (db : DBState) : DBState := { db with schemaApplied := true }

/-- Number of user rows carrying a given email. -/
def countEmail (users : List UserRow) (email : String) : Nat :=
  (users.filter (fun r => r.email == email)).length

/-- Number of audit rows carrying a given action. -/
def countAction (db : DBState) (action : String) : Nat :=
  (db.audit_log.filter (fun r => r.action == action)).length

/-- The details payload of the most recently appended audit row. -/
def lastAuditDetails (db : DBState) : Option String :=
  db.audit_log.getLast?.map (fun r => r.details)

/-! ## Connections and exceptions

`psycopg2.connect` either yields a live connection (modelled by a `Nat`
handle) or raises an exception. The exceptions the scripts can see are
`psycopg2.Error` (with `pgcode` / `pgerror`), `FileNotFoundError` from
`open`, and anything else. -/

/-- A `psycopg2.Error`: SQLSTATE code (`e.pgcode`) and message (`e.pgerror`). -/
structure DBErr where
  code : String
  msg : String
deriving DecidableEq, Repr

inductive PyExc
  | fileNotFound (path : String)
  | dbError (e : DBErr)
  | other (msg : String)
deriving DecidableEq, Repr

/-- `str(e)`: what an f-string interpolation of the exception prints.
For a `psycopg2.Error` this is the error message, not the SQLSTATE code. -/
def excMsg : PyExc → String
  | .fileNotFound p => "No such file or directory: " ++ p
  | .dbError e => e.msg
  | .other m => m

/-- A connection configuration of `setup-with-ipv6.py` (lines 12-40). -/
structure ConnConfig where
  host : String
  port : Nat
  database : String
  user : String
  password : String
  sslmode : String
deriving DecidableEq, Repr

/-- The hard-coded fallback list `CONNECTION_ATTEMPTS` (lines 12-40):
standard hostname, IPv6 literal, then the pooler port. -/
def CONNECTION_ATTEMPTS : List ConnConfig :=
  [⟨"db.iithtbuedvwmtbagquxy.supabase.co", 5432, "postgres", "postgres",
    "Success*2026$$$", "require"⟩,
   ⟨"2600:1f16:1cd0:3300:b302:cf8b:1d42:4843", 5432, "postgres", "postgres",
    "Success*2026$$$", "require"⟩,
   ⟨"db.iithtbuedvwmtbagquxy.supabase.co", 6543, "postgres", "postgres",
    "Success*2026$$$", "require"⟩]

/-- The fixed `connect_timeout=10` passed to every attempt
(`setup-with-ipv6.py` line 46, `setup-database.py` line 36). -/
def CONNECT_TIMEOUT : Nat := 10

/-- `try_connection` (`setup-with-ipv6.py` lines 42-51): call
`psycopg2.connect` with the given configuration; return the connection on
success and `None` on any exception — nothing propagates to the caller.
`connectRaw` is the oracle giving the outcome of the underlying connect. -/
def try_connection (connectRaw : ConnConfig → Except PyExc Nat) (config : ConnConfig) :
    Option Nat :=
  match connectRaw config with
  | .ok conn => some conn
  | .error _ => none

/-- The fallback loop of `setup-with-ipv6.py` lines 57-62: walk the
configuration list, stopping at the first attempt that yields a connection.
Returns the list of configurations actually tried and the result. -/
def connectAttempts (outcome : ConnConfig → Option Nat) :
    List ConnConfig → List ConnConfig × Option Nat
  | [] => ([], none)
  | c :: rest =>
    match outcome c with
    | some conn => ([c], some conn)
    | none =>
      let r := connectAttempts outcome rest
      (c :: r.1, r.2)

/-! ## Console output

One constructor per distinct report the scripts print on their control-flow
paths. `dbError` is the dedicated `psycopg2.Error` handler of
`setup-database.py` lines 157-161, which prints the message, the SQLSTATE
code and `pgerror`; `fileNotFound` is its dedicated `FileNotFoundError`
handler (lines 162-165, the fixed text `database/schema.sql not found`);
`genericError` is a generic `except Exception` handler printing only
`str(e)` (`setup-database.py` lines 166-170, `setup-with-ipv6.py`
lines 126-130); `allAttemptsFailed` and `remediation` are the failure
diagnostic and the Supabase SQL Editor remediation text of
`setup-with-ipv6.py` lines 64-69. -/

inductive OutLine
  | info (s : String)
  | dbError (code msg : String)
  | fileNotFound
  | genericError (msg : String)
  | allAttemptsFailed
  | remediation
deriving DecidableEq, Repr

/-- Character-list version of `startsWith`. -/
def startsWithChars : List Char → List Char → Bool
  | [], _ => true
  | _ :: _, [] => false
  | a :: as, b :: bs => a == b && startsWithChars as bs

/-- Whether `sub` occurs as a contiguous run inside the second list. -/
def hasSubstring (sub : List Char) : List Char → Bool
  | [] => startsWithChars sub []
  | b :: bs => startsWithChars sub (b :: bs) || hasSubstring sub bs

/-- Substring test on strings. -/
def strContains (s sub : String) : Bool := hasSubstring sub.data s.data

/-- Whether a SQLSTATE code appears anywhere in the printed output, either
as the code field of the dedicated database-error report or as a substring
of some printed message. -/
def outSurfacesCode (out : List OutLine) (code : String) : Bool :=
  out.any (fun l =>
    match l with
    | .dbError c m => c == code || strContains m code
    | .genericError m => strContains m code
    | .info s => strContains s code
    | _ => false)

/-! ## The run of `setup-database.py`

`main` (lines 26-170) as a function of an environment of failure oracles.
Each oracle tells whether the corresponding fallible call raises, and with
which error; `now` is the timestamp `NOW()` evaluates to. The connection is
opened with `autocommit = False` (line 38), so writes become durable only at
`conn.commit()` (lines 49 and 106); when the process exits inside an
exception handler, the open transaction is never committed and rolls back.
The result records the exit code, the committed database state, how many
commits were issued, and the error-path console lines. -/

structure PyEnv where
  /-- outcome of `psycopg2.connect` (line 33); `psycopg2.Error` on failure -/
  connectError : Option DBErr
  /-- contents of `database/schema.sql`, `none` when the file is absent (line 44) -/
  schemaFile : Option String
  /-- error raised by `cursor.execute(schema_sql)` (line 48) -/
  schemaExecError : Option DBErr
  /-- error raised by the upsert statements (lines 71-89) -/
  upsertError : Option DBErr
  /-- error raised by the audit-log insert (lines 99-103) -/
  auditInsertError : Option DBErr
  /-- error raised by the read-only verification queries after the second
  commit (lines 110-136) -/
  postCommitError : Option DBErr
  now : Nat

structure SetupResult where
  exitCode : Nat
  committed : DBState
  commits : Nat
  output : List OutLine
deriving DecidableEq, Repr

/-- Exit-with-database-error: the handler of lines 157-161 prints the
message and the SQLSTATE code, then `exit(1)`. -/
def dbErrorExit (e : DBErr) (committed : DBState) (commits : Nat) : SetupResult :=
  ⟨1, committed, commits, [OutLine.dbError e.code e.msg]⟩

/-- `main` of `setup-database.py`. -/
def runSetupDatabase (env : PyEnv) (init : DBState) : SetupResult :=
  match env.connectError with
  | some e => dbErrorExit e init 0
  | none =>
  match env.schemaFile with
  | none => ⟨1, init, 0, [OutLine.fileNotFound]⟩
  | some _sql =>
  match env.schemaExecError with
  | some e => dbErrorExit e init 0
  | none =>
  let afterSchema := applySchema init
  -- conn.commit() — line 49, first commit
  match env.upsertError with
  | some e => dbErrorExit e afterSchema 1
  | none =>
  match env.auditInsertError with
  | some e => dbErrorExit e afterSchema 1
  | none =>
  let final := adminRun afterSchema env.now
  -- conn.commit() — line 106, second commit
  match env.postCommitError with
  | some e => dbErrorExit e final 2
  | none => ⟨0, runOps reporterOps final, 2, [OutLine.info "Setup Complete"]⟩

/-- An environment in which every fallible call of `setup-database.py`
succeeds. -/
def dbEnvOk (env : PyEnv) : Bool :=
  env.connectError.isNone && env.schemaFile.isSome && env.schemaExecError.isNone
    && env.upsertError.isNone && env.auditInsertError.isNone
    && env.postCommitError.isNone

/-! ## The run of `setup-with-ipv6.py`

`main` (lines 53-130) as a function of the connect oracle, the contents of
`database/complete-setup.sql`, and the error oracle of the one
`cursor.execute(sql)`. Inside the `try` block every exception — a missing
file included — reaches the single generic `except Exception` handler
(lines 126-130), which prints `str(e)` and exits 1. -/

structure Ipv6Env where
  /-- outcome of `psycopg2.connect(**config, ...)` inside `try_connection` -/
  connectRaw : ConnConfig → Except PyExc Nat
  /-- contents of `database/complete-setup.sql`, `none` when absent (line 79) -/
  sqlFile : Option String
  /-- error raised by `cursor.execute(sql)` (line 83) -/
  execError : Option DBErr

structure Ipv6Result where
  exitCode : Nat
  committed : DBState
  commits : Nat
  /-- whether `cursor.execute(sql)` was reached -/
  sqlExecuted : Bool
  output : List OutLine
deriving DecidableEq, Repr

/-- `main` of `setup-with-ipv6.py`. -/
def runSetupIpv6 (env : Ipv6Env) (init : DBState) : Ipv6Result :=
  let attempt := connectAttempts (try_connection env.connectRaw) CONNECTION_ATTEMPTS
  match attempt.2 with
  | none => ⟨1, init, 0, false, [OutLine.allAttemptsFailed, OutLine.remediation]⟩
  | some _conn =>
  match env.sqlFile with
  | none =>
    ⟨1, init, 0, false,
     [OutLine.genericError (excMsg (PyExc.fileNotFound "database/complete-setup.sql"))]⟩
  | some _sql =>
  match env.execError with
  | some e => ⟨1, init, 0, true, [OutLine.genericError (excMsg (PyExc.dbError e))]⟩
  | none =>
    -- conn.commit() — line 84, the only commit
    ⟨0, runOps ipv6ReporterOps (applySchema init), 1, true, [OutLine.info "Setup Complete"]⟩

/-- An environment in which `setup-with-ipv6.py` reaches the success path. -/
def ipv6EnvOk (env : Ipv6Env) : Bool :=
  (connectAttempts (try_connection env.connectRaw) CONNECTION_ATTEMPTS).2.isSome
    && env.sqlFile.isSome && env.execError.isNone

/-! ## Concrete fixtures

Closed inputs used to instantiate the theorems below on concrete runs. -/

/-- A database holding one user row, id 1, email `a@b`. -/
def dbOneUser : DBState := ⟨true, [⟨1, "a@b", "old", "dev", 0, 0⟩], [], 2, 1, 0, 0⟩

/-- `setup-database.py` environment: everything succeeds. -/
def envAllOk : PyEnv := ⟨none, some "CREATE TABLE users ()", none, none, none, none, 7⟩

/-- `setup-database.py` environment: the schema execution raises. -/
def envSchemaErr : PyEnv :=
  ⟨none, some "CREATE TABLE users ()",
   some ⟨"42601", "syntax error at end of input"⟩, none, none, none, 7⟩

/-- `setup-database.py` environment: `database/schema.sql` is missing. -/
def envNoFile : PyEnv := ⟨none, none, none, none, none, none, 7⟩

/-- `setup-database.py` environment: the audit-log insert raises after the
schema commit. -/
def envAuditErr : PyEnv :=
  ⟨none, some "CREATE TABLE users ()", none, none,
   some ⟨"23503", "violates foreign key constraint"⟩, none, 7⟩

/-- Connect oracle on which every configuration fails. -/
def rawAllFail : ConnConfig → Except PyExc Nat :=
  fun _ => Except.error (PyExc.other "Network is unreachable")

/-- `setup-with-ipv6.py` environment: every connection attempt fails. -/
def ienvAllFail : Ipv6Env := ⟨rawAllFail, some "CREATE TABLE users ()", none⟩

/-- `setup-with-ipv6.py` environment: connection succeeds,
`database/complete-setup.sql` is missing. -/
def ienvNoFile : Ipv6Env := ⟨fun _ => Except.ok 1, none, none⟩

/-- `setup-with-ipv6.py` environment: connection succeeds, the SQL execution
raises a database error. -/
def ienvExecErr : Ipv6Env :=
  ⟨fun _ => Except.ok 1, some "CREATE TABLE users ()",
   some ⟨"42601", "syntax error at end of input"⟩⟩

/-! ## Helper lemmas -/

/-- The fallback loop returns the first successful attempt. -/
theorem connectAttempts_snd (o : ConnConfig → Option Nat) (l : List ConnConfig) :
    (connectAttempts o l).2 = l.findSome? o := by
  induction l with
  | nil => rfl
  | cons c rest ih =>
    simp only [connectAttempts, List.findSome?_cons]
    cases o c <;> simp [ih]

/-- The fallback loop tries exactly the failing head of the list plus the
first success when there is one — hence nothing after a success. -/
theorem connectAttempts_fst (o : ConnConfig → Option Nat) (l : List ConnConfig) :
    (connectAttempts o l).1
      = l.take ((l.takeWhile (fun c => (o c).isNone)).length + 1) := by
  induction l with
  | nil => rfl
  | cons c rest ih =>
    cases h : o c with
    | some conn => simp [connectAttempts, h, List.takeWhile_cons]
    | none => simp [connectAttempts, h, List.takeWhile_cons, ih]

/-- When every attempt fails, the loop tries the whole list. -/
theorem connectAttempts_all_fail (o : ConnConfig → Option Nat) (l : List ConnConfig)
    (h : ∀ c ∈ l, o c = none) : (connectAttempts o l).1 = l := by
  induction l with
  | nil => rfl
  | cons c rest ih =>
    have hc := h c (List.mem_cons_self c rest)
    simp only [connectAttempts, hc]
    simp [ih (fun x hx => h x (List.mem_cons_of_mem c hx))]

/-- Mapping an email-preserving function over the users table preserves the
per-email row count. -/
theorem countEmail_map (users : List UserRow) (f : UserRow → UserRow)
    (hf : ∀ row, (f row).email = row.email) (e : String) :
    countEmail (users.map f) e = countEmail users e := by
  induction users with
  | nil => rfl
  | cons u us ih =>
    simp only [countEmail, List.map_cons, List.filter_cons, hf u] at *
    by_cases h : u.email == e <;> simp [h, ih]

/-- Appending a row adds one to the count of its own email. -/
theorem countEmail_append (users : List UserRow) (row : UserRow) (e : String) :
    countEmail (users ++ [row]) e
      = countEmail users e + (if row.email == e then 1 else 0) := by
  simp only [countEmail, List.filter_append, List.length_append]
  by_cases h : row.email == e <;> simp [h]

/-- A failed lookup means no row carries the email. -/
theorem countEmail_of_find_none (users : List UserRow) (e : String)
    (h : findUser users e = none) : countEmail users e = 0 := by
  simp only [findUser] at h
  have hall := List.find?_eq_none.mp h
  simp only [countEmail, List.length_eq_zero]
  exact List.filter_eq_nil_iff.mpr hall

/-- A successful lookup means at least one row carries the email. -/
theorem countEmail_of_find_some (users : List UserRow) (e : String) (u : UserRow)
    (h : findUser users e = some u) : 1 ≤ countEmail users e := by
  simp only [findUser] at h
  have hmem : u ∈ users := List.mem_of_find?_eq_some h
  have hp := List.find?_some h
  have hmemf : u ∈ users.filter (fun r => r.email == e) := List.mem_filter.mpr ⟨hmem, hp⟩
  have hlen := List.length_pos.mpr (List.ne_nil_of_mem hmemf)
  simpa [countEmail] using hlen

/-- The admin run leaves exactly one user row with the admin email, provided
the at-most-one invariant held before. -/
theorem adminRun_countEmail (db : DBState) (t : Nat)
    (h : countEmail db.users ADMIN_EMAIL ≤ 1) :
    countEmail (adminRun db t).users ADMIN_EMAIL = 1 := by
  unfold adminRun
  cases hf : findUser db.users ADMIN_EMAIL with
  | some u =>
    have h1 := countEmail_of_find_some db.users ADMIN_EMAIL u hf
    have hmap := countEmail_map db.users
      (fun row => if row.email == ADMIN_EMAIL
        then { row with name := ADMIN_NAME, role := ADMIN_ROLE, updated_at := t }
        else row)
      (fun row => by by_cases hrow : row.email == ADMIN_EMAIL <;> simp [hrow])
      ADMIN_EMAIL
    simp only [adminUpsert, hf, applyOp]
    omega
  | none =>
    have h0 := countEmail_of_find_none db.users ADMIN_EMAIL hf
    simp only [adminUpsert, hf, applyOp]
    rw [countEmail_append]
    simp [h0]

/-- Each admin run appends exactly one audit row. -/
theorem adminRun_audit_length (db : DBState) (t : Nat) :
    (adminRun db t).audit_log.length = db.audit_log.length + 1 := by
  unfold adminRun
  cases hf : findUser db.users ADMIN_EMAIL <;> simp [adminUpsert, hf, applyOp]

/-- Each admin run appends exactly one `password_created` audit row. -/
theorem adminRun_countAction (db : DBState) (t : Nat) :
    countAction (adminRun db t) "password_created"
      = countAction db "password_created" + 1 := by
  unfold adminRun
  cases hf : findUser db.users ADMIN_EMAIL <;>
    simp [adminUpsert, hf, applyOp, countAction, List.filter_append]

/-- Invariant carried through a whole sequence of admin runs. -/
theorem adminRuns_invariant (ts : List Nat) : ∀ db : DBState,
    countEmail db.users ADMIN_EMAIL ≤ 1 →
    countEmail (adminRuns db ts).users ADMIN_EMAIL ≤ 1 ∧
    (adminRuns db ts).audit_log.length = db.audit_log.length + ts.length ∧
    countAction (adminRuns db ts) "password_created"
      = countAction db "password_created" + ts.length ∧
    (ts ≠ [] → countEmail (adminRuns db ts).users ADMIN_EMAIL = 1) := by
  induction ts with
  | nil => intro db h; simpa [adminRuns] using h
  | cons t ts ih =>
    intro db h
    have h1 := adminRun_countEmail db t h
    have h2 := adminRun_audit_length db t
    have h3 := adminRun_countAction db t
    obtain ⟨ha, hb, hc, hd⟩ := ih (adminRun db t) (le_of_eq h1)
    refine ⟨ha, ?_, ?_, fun _ => ?_⟩
    · simp only [adminRuns, List.length_cons]
      omega
    · simp only [adminRuns, List.length_cons]
      omega
    · simp only [adminRuns]
      cases ts with
      | nil => simpa [adminRuns] using h1
      | cons t2 ts2 => exact hd (by simp)

/-- A read-only statement does not change the database state. -/
theorem applyOp_of_readOnly (op : SqlOp) (db : DBState) (h : isReadOnly op = true) :
    applyOp op db = db := by
  cases op <;> simp_all [isReadOnly, applyOp]

/-- A list of read-only statements does not change the database state. -/
theorem runOps_of_readOnly (ops : List SqlOp) (db : DBState)
    (h : ops.all isReadOnly = true) : runOps ops db = db := by
  induction ops generalizing db with
  | nil => rfl
  | cons op rest ih =>
    simp only [List.all_cons, Bool.and_eq_true] at h
    simp only [runOps, List.foldl_cons, applyOp_of_readOnly op db h.1]
    exact ih db h.2

/-- The verification/statistics queries of `setup-database.py` leave the
database unchanged. -/
theorem runOps_reporter_id (db : DBState) : runOps reporterOps db = db :=
  runOps_of_readOnly _ _ (by decide)

/-- The verification queries of `setup-with-ipv6.py` leave the database
unchanged. -/
theorem runOps_ipv6Reporter_id (db : DBState) : runOps ipv6ReporterOps db = db :=
  runOps_of_readOnly _ _ (by decide)

/-- The admin run does not touch the schema flag. -/
theorem adminRun_schemaApplied (db : DBState) (t : Nat) :
    (adminRun db t).schemaApplied = db.schemaApplied := by
  unfold adminRun
  cases hf : findUser db.users ADMIN_EMAIL <;> simp [adminUpsert, hf, applyOp]

/-! ## Claim theorems -/

/-- C1: starting from a state satisfying the at-most-one-row-per-email
invariant, any sequence of Admin Upserter runs keeps at most one user row
with the admin email, appends exactly one audit-log row per run; and when no
`password_created` audit row existed before, two runs leave exactly one user
row with that email and exactly two `password_created` audit rows. -/
theorem upsert_idempotent_audit_monotone (db : DBState) (ts : List Nat)
    (h1 : countEmail db.users ADMIN_EMAIL ≤ 1)
    (h2 : countAction db "password_created" = 0) :
    countEmail (adminRuns db ts).users ADMIN_EMAIL ≤ 1 ∧
    (adminRuns db ts).audit_log.length = db.audit_log.length + ts.length ∧
    ∀ t1 t2 : Nat, countEmail (adminRuns db [t1, t2]).users ADMIN_EMAIL = 1 ∧
      countAction (adminRuns db [t1, t2]) "password_created" = 2 := by
  obtain ⟨ha, hb, _, _⟩ := adminRuns_invariant ts db h1
  refine ⟨ha, hb, fun t1 t2 => ?_⟩
  obtain ⟨_, _, hc2, hd2⟩ := adminRuns_invariant [t1, t2] db h1
  exact ⟨hd2 (by simp), by simpa [h2] using hc2⟩

/-- Witness for C1: two runs on the empty database give exactly one admin
user row and exactly two `password_created` audit rows. -/
theorem upsert_idempotent_audit_monotone_w :
    countEmail (adminRuns emptyDB [3, 4]).users ADMIN_EMAIL = 1 ∧
    countAction (adminRuns emptyDB [3, 4]) "password_created" = 2 :=
  (upsert_idempotent_audit_monotone emptyDB [3, 4] (by decide) (by decide)).2.2 3 4

/-- C2: when a row with the email exists, the upsert rewrites name, role and
updated_at of matching rows in place (ids, emails and created_at untouched,
no new row) and uses the pre-existing row's id; when none exists, it appends
a fresh row and uses the database-generated id. -/
theorem adminUpsert_branch_spec (db : DBState) (e n r : String) (t : Nat) :
    (∀ u, findUser db.users e = some u →
      (adminUpsert db e n r t).2 = u.id ∧
      (adminUpsert db e n r t).1.users = db.users.map (fun row =>
        if row.email == e
          then { row with name := n, role := r, updated_at := t } else row) ∧
      (adminUpsert db e n r t).1.nextUserId = db.nextUserId) ∧
    (findUser db.users e = none →
      (adminUpsert db e n r t).2 = db.nextUserId ∧
      (adminUpsert db e n r t).1.users = db.users ++ [⟨db.nextUserId, e, n, r, t, t⟩] ∧
      (adminUpsert db e n r t).1.nextUserId = db.nextUserId + 1) := by
  constructor
  · intro u hu
    simp [adminUpsert, hu, applyOp]
  · intro hn
    simp [adminUpsert, hn, applyOp]

/-- Witness for C2: on a database with user id 1 under email `a@b` the
upsert keeps id 1; on the empty database it uses the generated id. -/
theorem adminUpsert_branch_spec_w :
    (adminUpsert dbOneUser "a@b" "new" "cto" 9).2 = 1 ∧
    (adminUpsert emptyDB "a@b" "new" "cto" 9).2 = emptyDB.nextUserId :=
  ⟨((adminUpsert_branch_spec dbOneUser "a@b" "new" "cto" 9).1
      ⟨1, "a@b", "old", "dev", 0, 0⟩ (by decide)).1,
   ((adminUpsert_branch_spec emptyDB "a@b" "new" "cto" 9).2 (by decide)).1⟩

/-- C3: the Connector returns the first configuration that yields a live
connection, tries exactly the failing head of the ordered list plus that
first success (nothing after a success), passes the fixed bounded timeout to
every attempt, and when every configuration fails the run prints the failure
diagnostic and remediation text and exits non-zero. -/
theorem connector_first_success (env : Ipv6Env) (init : DBState) :
    (connectAttempts (try_connection env.connectRaw) CONNECTION_ATTEMPTS).2
      = CONNECTION_ATTEMPTS.findSome? (try_connection env.connectRaw) ∧
    (connectAttempts (try_connection env.connectRaw) CONNECTION_ATTEMPTS).1
      = CONNECTION_ATTEMPTS.take
          ((CONNECTION_ATTEMPTS.takeWhile
              (fun c => (try_connection env.connectRaw c).isNone)).length + 1) ∧
    CONNECT_TIMEOUT = 10 ∧
    (CONNECTION_ATTEMPTS.findSome? (try_connection env.connectRaw) = none →
      (runSetupIpv6 env init).exitCode = 1 ∧
      OutLine.allAttemptsFailed ∈ (runSetupIpv6 env init).output ∧
      OutLine.remediation ∈ (runSetupIpv6 env init).output) := by
  refine ⟨connectAttempts_snd _ _, connectAttempts_fst _ _, rfl, fun hfail => ?_⟩
  have h2 := connectAttempts_snd (try_connection env.connectRaw) CONNECTION_ATTEMPTS
  simp [runSetupIpv6, h2, hfail]

/-- Witness for C3: with every attempt failing, the run exits 1 and prints
the diagnostic and the remediation text. -/
theorem connector_first_success_w :
    (runSetupIpv6 ienvAllFail emptyDB).exitCode = 1 ∧
    OutLine.allAttemptsFailed ∈ (runSetupIpv6 ienvAllFail emptyDB).output ∧
    OutLine.remediation ∈ (runSetupIpv6 ienvAllFail emptyDB).output :=
  (connector_first_success ienvAllFail emptyDB).2.2.2 (by decide)

/-- C4 counterexample: in `setup-with-ipv6.py` a database error raised while
executing the SQL file reaches the generic `except Exception` handler, which
prints only `str(e)` — the SQLSTATE code `42601` of the raised error appears
nowhere in the output, so the code is not surfaced, contradicting the claim
as stated. -/
theorem schema_error_code_not_surfaced :
    (runSetupIpv6 ienvExecErr emptyDB).exitCode = 1 ∧
    outSurfacesCode (runSetupIpv6 ienvExecErr emptyDB).output "42601" = false := by
  decide

/-- C4 amended: in both scripts the whole SQL file is executed as one batch
and a database error raised during execution aborts the run with exit code 1
and no commit of the schema; `setup-database.py` surfaces the database's
error code and message through its dedicated handler, while
`setup-with-ipv6.py` surfaces only the error message through its generic
handler. -/
theorem schema_applier_transactional (env : PyEnv) (ienv : Ipv6Env)
    (init : DBState) (e : DBErr) :
    (env.connectError = none → env.schemaFile.isSome = true →
      env.schemaExecError = some e →
      (runSetupDatabase env init).exitCode = 1 ∧
      (runSetupDatabase env init).committed = init ∧
      (runSetupDatabase env init).commits = 0 ∧
      OutLine.dbError e.code e.msg ∈ (runSetupDatabase env init).output) ∧
    ((connectAttempts (try_connection ienv.connectRaw) CONNECTION_ATTEMPTS).2.isSome
        = true →
      ienv.sqlFile.isSome = true → ienv.execError = some e →
      (runSetupIpv6 ienv init).exitCode = 1 ∧
      (runSetupIpv6 ienv init).committed = init ∧
      (runSetupIpv6 ienv init).commits = 0 ∧
      OutLine.genericError e.msg ∈ (runSetupIpv6 ienv init).output) ∧
    (dbEnvOk env = true →
      (runSetupDatabase env init).committed.schemaApplied = true ∧
      (runSetupDatabase env init).commits = 2) := by
  refine ⟨fun h1 h2 h3 => ?_, fun h1 h2 h3 => ?_, fun hok => ?_⟩
  · obtain ⟨sql, hsql⟩ := Option.isSome_iff_exists.mp h2
    simp [runSetupDatabase, h1, hsql, h3, dbErrorExit]
  · obtain ⟨conn, hconn⟩ := Option.isSome_iff_exists.mp h1
    obtain ⟨sql, hsql⟩ := Option.isSome_iff_exists.mp h2
    simp [runSetupIpv6, hconn, hsql, h3, excMsg]
  · simp only [dbEnvOk, Bool.and_eq_true, Option.isNone_iff_eq_none,
      Option.isSome_iff_exists] at hok
    obtain ⟨⟨⟨⟨⟨h1, sql, hsql⟩, h3⟩, h4⟩, h5⟩, h6⟩ := hok
    simp [runSetupDatabase, h1, hsql, h3, h4, h5, h6, runOps_reporter_id,
      adminRun_schemaApplied, applySchema]

/-- Witness for C4: concrete schema-execution failures in both scripts. -/
theorem schema_applier_transactional_w :
    ((runSetupDatabase envSchemaErr emptyDB).exitCode = 1 ∧
     (runSetupDatabase envSchemaErr emptyDB).committed = emptyDB ∧
     (runSetupDatabase envSchemaErr emptyDB).commits = 0 ∧
     OutLine.dbError "42601" "syntax error at end of input"
       ∈ (runSetupDatabase envSchemaErr emptyDB).output) ∧
    ((runSetupIpv6 ienvExecErr emptyDB).exitCode = 1 ∧
     (runSetupIpv6 ienvExecErr emptyDB).committed = emptyDB ∧
     (runSetupIpv6 ienvExecErr emptyDB).commits = 0 ∧
     OutLine.genericError "syntax error at end of input"
       ∈ (runSetupIpv6 ienvExecErr emptyDB).output) :=
  ⟨(schema_applier_transactional envSchemaErr ienvExecErr emptyDB
      ⟨"42601", "syntax error at end of input"⟩).1 (by decide) (by decide) (by decide),
   (schema_applier_transactional envSchemaErr ienvExecErr emptyDB
      ⟨"42601", "syntax error at end of input"⟩).2.1 (by decide) (by decide) (by decide)⟩

/-- C5 counterexample: in `setup-with-ipv6.py` a missing SQL file is caught
by the generic `except Exception` handler, not reported through a dedicated
file-not-found report: the run exits 1 but no distinguished file-not-found
line appears in the output, contradicting the claim as stated. -/
theorem ipv6_file_missing_not_distinguished :
    (runSetupIpv6 ienvNoFile emptyDB).exitCode = 1 ∧
    OutLine.fileNotFound ∉ (runSetupIpv6 ienvNoFile emptyDB).output := by
  decide

/-- C5 amended: `setup-database.py` reports a missing schema file through its
dedicated file-not-found handler, distinct from the database-error and
generic handlers, and exits 1; `setup-with-ipv6.py` also exits 1 but reports
the missing file only through its generic handler message; in both scripts
the exit code is 0 when every step succeeds and 1 on any connection, file or
database error. -/
theorem missing_schema_file_exit (env : PyEnv) (ienv : Ipv6Env) (init : DBState) :
    (env.connectError = none → env.schemaFile = none →
      (runSetupDatabase env init).exitCode = 1 ∧
      OutLine.fileNotFound ∈ (runSetupDatabase env init).output ∧
      (∀ c m, OutLine.dbError c m ∉ (runSetupDatabase env init).output) ∧
      (∀ m, OutLine.genericError m ∉ (runSetupDatabase env init).output)) ∧
    ((connectAttempts (try_connection ienv.connectRaw) CONNECTION_ATTEMPTS).2.isSome
        = true →
      ienv.sqlFile = none →
      (runSetupIpv6 ienv init).exitCode = 1 ∧
      OutLine.genericError (excMsg (PyExc.fileNotFound "database/complete-setup.sql"))
        ∈ (runSetupIpv6 ienv init).output ∧
      OutLine.fileNotFound ∉ (runSetupIpv6 ienv init).output) ∧
    ((runSetupDatabase env init).exitCode = if dbEnvOk env then 0 else 1) ∧
    ((runSetupIpv6 ienv init).exitCode = if ipv6EnvOk ienv then 0 else 1) := by
  refine ⟨fun h1 h2 => ?_, fun h1 h2 => ?_, ?_, ?_⟩
  · simp [runSetupDatabase, h1, h2]
  · obtain ⟨conn, hconn⟩ := Option.isSome_iff_exists.mp h1
    simp [runSetupIpv6, hconn, h2]
  · obtain ⟨ce, sf, see, ue, aie, pce, now⟩ := env
    cases ce <;> cases sf <;> cases see <;> cases ue <;> cases aie <;> cases pce <;>
      simp [runSetupDatabase, dbErrorExit, dbEnvOk]
  · cases hconn : (connectAttempts (try_connection ienv.connectRaw)
        CONNECTION_ATTEMPTS).2 with
    | none => simp [runSetupIpv6, ipv6EnvOk, hconn]
    | some conn =>
      cases hsql : ienv.sqlFile with
      | none => simp [runSetupIpv6, ipv6EnvOk, hconn, hsql]
      | some sql =>
        cases hexec : ienv.execError with
        | none => simp [runSetupIpv6, ipv6EnvOk, hconn, hsql, hexec]
        | some e => simp [runSetupIpv6, ipv6EnvOk, hconn, hsql, hexec]

/-- Witness for C5: concrete missing-file runs of both scripts, plus the
exit codes of a fully successful run and of an all-green environment. -/
theorem missing_schema_file_exit_w :
    ((runSetupDatabase envNoFile emptyDB).exitCode = 1 ∧
     OutLine.fileNotFound ∈ (runSetupDatabase envNoFile emptyDB).output ∧
     (∀ c m, OutLine.dbError c m ∉ (runSetupDatabase envNoFile emptyDB).output) ∧
     (∀ m, OutLine.genericError m ∉ (runSetupDatabase envNoFile emptyDB).output)) ∧
    ((runSetupDatabase envAllOk emptyDB).exitCode = if dbEnvOk envAllOk then 0 else 1) :=
  ⟨(missing_schema_file_exit envNoFile ienvNoFile emptyDB).1 (by decide) (by decide),
   (missing_schema_file_exit envAllOk ienvNoFile emptyDB).2.2.1⟩

/-- C6: when every connection attempt fails, the run exits 1 with the
failure diagnostic, never reaches `cursor.execute`, issues no commit and
leaves the database exactly as it was — no table or row is touched. -/
theorem all_fail_no_write (env : Ipv6Env) (init : DBState)
    (h : CONNECTION_ATTEMPTS.findSome? (try_connection env.connectRaw) = none) :
    (runSetupIpv6 env init).exitCode = 1 ∧
    (runSetupIpv6 env init).committed = init ∧
    (runSetupIpv6 env init).commits = 0 ∧
    (runSetupIpv6 env init).sqlExecuted = false ∧
    OutLine.allAttemptsFailed ∈ (runSetupIpv6 env init).output := by
  have h2 := connectAttempts_snd (try_connection env.connectRaw) CONNECTION_ATTEMPTS
  simp [runSetupIpv6, h2, h]

/-- Witness for C6: with the all-failing connect oracle, the run exits 1 and
the database is untouched. -/
theorem all_fail_no_write_w :
    (runSetupIpv6 ienvAllFail emptyDB).exitCode = 1 ∧
    (runSetupIpv6 ienvAllFail emptyDB).committed = emptyDB ∧
    (runSetupIpv6 ienvAllFail emptyDB).commits = 0 ∧
    (runSetupIpv6 ienvAllFail emptyDB).sqlExecuted = false ∧
    OutLine.allAttemptsFailed ∈ (runSetupIpv6 ienvAllFail emptyDB).output :=
  all_fail_no_write ienvAllFail emptyDB (by decide)

/-- C7: the password hash is the SHA-256 digest of the plaintext password
concatenated with the static secret, and it is deterministic: the details
payload stored in the audit row is the same fixed string on every run, for
every starting database state and timestamp. -/
theorem hash_password_deterministic (db1 db2 : DBState) (t1 t2 : Nat) (p : String) :
    hash_password p = sha256hex (strBytes (p ++ JWT_SECRET)) ∧
    lastAuditDetails (adminRun db1 t1)
      = some (jsonDetails ADMIN_EMAIL (hash_password ADMIN_PASSWORD)) ∧
    lastAuditDetails (adminRun db1 t1) = lastAuditDetails (adminRun db2 t2) := by
  have key : ∀ (db : DBState) (t : Nat), lastAuditDetails (adminRun db t)
      = some (jsonDetails ADMIN_EMAIL (hash_password ADMIN_PASSWORD)) := by
    intro db t
    unfold adminRun
    cases hf : findUser db.users ADMIN_EMAIL <;>
      simp [adminUpsert, hf, applyOp, lastAuditDetails, List.getLast?_concat]
  exact ⟨rfl, key db1 t1, (key db1 t1).trans (key db2 t2).symm⟩

/-- C8: every statement of the Reporter (table listing, admin verification
select, row-count statistics) is read-only, and running them leaves any
database state exactly unchanged — in both scripts. -/
theorem reporter_read_only :
    reporterOps.all isReadOnly = true ∧
    ipv6ReporterOps.all isReadOnly = true ∧
    (∀ db : DBState, runOps reporterOps db = db) ∧
    (∀ db : DBState, runOps ipv6ReporterOps db = db) :=
  ⟨by decide, by decide,
   fun db => runOps_of_readOnly _ db (by decide),
   fun db => runOps_of_readOnly _ db (by decide)⟩

/-- C9: `setup-database.py` commits exactly twice on the success path; the
committed state is always one of the three checkpoints — untouched, schema
only, or schema plus the upsert-and-audit pair — so the user upsert and the
new audit row persist together or not at all; and an error during the audit
insert after the schema commit leaves exactly the schema committed while the
process exits 1. -/
theorem two_commits_checkpointed (env : PyEnv) (init : DBState) :
    (dbEnvOk env = true → (runSetupDatabase env init).commits = 2) ∧
    ((runSetupDatabase env init).committed = init ∨
     (runSetupDatabase env init).committed = applySchema init ∨
     (runSetupDatabase env init).committed = adminRun (applySchema init) env.now) ∧
    (∀ e : DBErr, env.connectError = none → env.schemaFile.isSome = true →
      env.schemaExecError = none → env.upsertError = none →
      env.auditInsertError = some e →
      (runSetupDatabase env init).exitCode = 1 ∧
      (runSetupDatabase env init).commits = 1 ∧
      (runSetupDatabase env init).committed = applySchema init) := by
  refine ⟨fun hok => ?_, ?_, fun e h1 h2 h3 h4 h5 => ?_⟩
  · simp only [dbEnvOk, Bool.and_eq_true, Option.isNone_iff_eq_none,
      Option.isSome_iff_exists] at hok
    obtain ⟨⟨⟨⟨⟨h1, sql, hsql⟩, h3⟩, h4⟩, h5⟩, h6⟩ := hok
    simp [runSetupDatabase, h1, hsql, h3, h4, h5, h6]
  · obtain ⟨ce, sf, see, ue, aie, pce, now⟩ := env
    cases ce <;> cases sf <;> cases see <;> cases ue <;> cases aie <;> cases pce <;>
      simp [runSetupDatabase, dbErrorExit, runOps_reporter_id]
  · obtain ⟨sql, hsql⟩ := Option.isSome_iff_exists.mp h2
    simp [runSetupDatabase, h1, hsql, h3, h4, h5, dbErrorExit]

/-- Witness for C9: a successful run commits twice, and a run whose audit
insert fails commits once, keeps exactly the schema, and exits 1. -/
theorem two_commits_checkpointed_w :
    (runSetupDatabase envAllOk emptyDB).commits = 2 ∧
    ((runSetupDatabase envAuditErr emptyDB).exitCode = 1 ∧
     (runSetupDatabase envAuditErr emptyDB).commits = 1 ∧
     (runSetupDatabase envAuditErr emptyDB).committed = applySchema emptyDB) :=
  ⟨(two_commits_checkpointed envAllOk emptyDB).1 (by decide),
   (two_commits_checkpointed envAuditErr emptyDB).2.2
     ⟨"23503", "violates foreign key constraint"⟩
     (by decide) (by decide) (by decide) (by decide) (by decide)⟩

/-- C10: `try_connection` is total over connection outcomes — for every
configuration it yields the live connection when the underlying connect
succeeds and `none` when it raises, never letting the exception escape — so
when every attempt fails the fallback loop examines every configuration of
the list. -/
theorem try_connection_total (raw : ConnConfig → Except PyExc Nat) :
    (∀ c : ConnConfig,
      (∃ conn, raw c = Except.ok conn ∧ try_connection raw c = some conn) ∨
      (∃ e, raw c = Except.error e ∧ try_connection raw c = none)) ∧
    ((∀ c ∈ CONNECTION_ATTEMPTS, try_connection raw c = none) →
      (connectAttempts (try_connection raw) CONNECTION_ATTEMPTS).1
        = CONNECTION_ATTEMPTS) := by
  constructor
  · intro c
    cases hr : raw c with
    | ok conn => exact Or.inl ⟨conn, rfl, by simp [try_connection, hr]⟩
    | error e => exact Or.inr ⟨e, rfl, by simp [try_connection, hr]⟩
  · intro h
    exact connectAttempts_all_fail _ _ h

/-- Witness for C10: under the all-failing connect oracle the loop tries all
three configurations. -/
theorem try_connection_total_w :
    (connectAttempts (try_connection rawAllFail) CONNECTION_ATTEMPTS).1
      = CONNECTION_ATTEMPTS :=
  (try_connection_total rawAllFail).2 (fun _ _ => rfl)

end CtoDashboard
